import Mathlib

/-!
Verification of the FT80x character-driver core (drivers/lcd/ft80x_base.c):
device lifecycle manager (open/close/unlink/destroy), command dispatcher
(write, PUTDISPLAYLIST, GETRESULT32), bring-up orchestrator
(ft80x_initialize) and the registration entry point (ft80x_register).

The C code is embedded shallowly: the lifecycle fields of
struct ft80x_dev_s become a record, each file operation becomes a pure
function from that record to a return code plus an outcome, and bus /
semaphore activity is recorded as explicit event traces.  Machine
integers are Nat with explicit `% 256` / `% 4294967296` where the C
types (uint8_t, uint32_t) can overflow or truncate.
-/

set_option maxHeartbeats 1000000

namespace Ft80x

/-! ### Return codes (values from errno.h; the driver returns negated errno) -/

def OK : Int := 0
def EMFILE : Int := 24
def ENODEV : Int := 19
def EINVAL : Int := 22
def ENOTTY : Int := 25

/-! ### Device lifecycle state

The lifecycle fields of struct ft80x_dev_s: `crefs` is a uint8_t
reference count (modelled as a Nat, with the uint8_t wrap made explicit
at the one place the C code relies on it), `unlinked` is the bool set by
ft80x_unlink.  kmm_zalloc zeroes the structure, so the initial state is
crefs = 0, unlinked = false. -/

structure DevState where
  crefs : Nat
  unlinked : Bool
deriving DecidableEq, Repr

def initState : DevState := ⟨0, false⟩

/-- Outcome of one lifecycle operation: either the instance stays live
with updated fields, or ft80x_destroy was invoked; in that case we
record the field values the instance had at the moment of destruction. -/
inductive LcOutcome where
  | live (s : DevState)
  | destroyed (f : DevState)
deriving DecidableEq, Repr

/-- ft80x_open (ft80x_base.c:180-227): under the semaphore, computes
tmp = crefs + 1 in uint8_t arithmetic; if tmp == 0 (more than 255 opens)
it fails with -EMFILE leaving crefs unchanged, otherwise stores tmp. -/
def ft80x_open (s : DevState) : Int × LcOutcome :=
  let tmp := (s.crefs + 1) % 256
  if tmp = 0 then (-EMFILE, LcOutcome.live s)
  else (OK, LcOutcome.live { s with crefs := tmp })

/-- ft80x_close (ft80x_base.c:237-289): under the semaphore, if
crefs <= 1 it sets crefs to 0 and, if unlinked, calls ft80x_destroy and
returns without posting the semaphore; otherwise it decrements crefs. -/
def ft80x_close (s : DevState) : Int × LcOutcome :=
  if s.crefs ≤ 1 then
    if s.unlinked = true then (OK, LcOutcome.destroyed { s with crefs := 0 })
    else (OK, LcOutcome.live { s with crefs := 0 })
  else (OK, LcOutcome.live { s with crefs := s.crefs - 1 })

/-- ft80x_unlink (ft80x_base.c:495-521): sets unlinked = true
unconditionally, then calls ft80x_destroy if crefs == 0; always returns
OK.  Note the source takes no semaphore here. -/
def ft80x_unlink (s : DevState) : Int × LcOutcome :=
  let s1 : DevState := { s with unlinked := true }
  if s1.crefs = 0 then (OK, LcOutcome.destroyed s1)
  else (OK, LcOutcome.live s1)

inductive LcOp where
  | openOp | closeOp | unlinkOp
deriving DecidableEq, Repr

def lcStep : LcOp → DevState → Int × LcOutcome
  | LcOp.openOp, s => ft80x_open s
  | LcOp.closeOp, s => ft80x_close s
  | LcOp.unlinkOp, s => ft80x_unlink s

/-- Run a sequence of lifecycle calls from a live state.  Once the
instance is destroyed no further call is applied: the caller contract
(enforced by the VFS layer) is that a destroyed instance is never
touched again, which is exactly the access-after-destruction freedom
the specification asserts. -/
def runOps : DevState → List LcOp → LcOutcome
  | s, [] => LcOutcome.live s
  | s, op :: rest =>
      match (lcStep op s).2 with
      | LcOutcome.live s1 => runOps s1 rest
      | LcOutcome.destroyed f => LcOutcome.destroyed f

/-- Number of ft80x_destroy invocations made while running the calls. -/
def destroyCount : DevState → List LcOp → Nat
  | _, [] => 0
  | s, op :: rest =>
      match (lcStep op s).2 with
      | LcOutcome.live s1 => destroyCount s1 rest
      | LcOutcome.destroyed _ => 1

/-! ### Event traces of the lifecycle operations

Each operation is also rendered as the sequence of semaphore operations,
lifecycle-field accesses and the ft80x_destroy call it performs, in
source order.  (The lcdinfo debug print is logging, which the spec
scopes out, and semaphore-wait failure aborts before any field access.) -/

inductive Ev where
  | semWait | semPost | readCrefs | writeCrefs | readUnlinked | writeUnlinked | destroy
deriving DecidableEq, BEq, Repr

/-- Events of ft80x_open: nxsem_wait; read crefs (tmp = crefs + 1);
on overflow just nxsem_post (errout_with_sem), else write crefs then post. -/
def openTrace (s : DevState) : List Ev :=
  Ev.semWait :: Ev.readCrefs ::
    (if (s.crefs + 1) % 256 = 0 then [Ev.semPost]
     else [Ev.writeCrefs, Ev.semPost])

/-- Events of ft80x_close: nxsem_wait; read crefs; if crefs <= 1 write
crefs := 0 and read unlinked, destroying (and not posting) when it is
set; otherwise decrement (read-modify-write) and post. -/
def closeTrace (s : DevState) : List Ev :=
  Ev.semWait :: Ev.readCrefs ::
    (if s.crefs ≤ 1 then
       Ev.writeCrefs :: Ev.readUnlinked ::
         (if s.unlinked = true then [Ev.destroy] else [Ev.semPost])
     else [Ev.readCrefs, Ev.writeCrefs, Ev.semPost])

/-- Events of ft80x_unlink: write unlinked, read crefs, destroy when
zero.  No semaphore event appears anywhere in the source of this
function. -/
def unlinkTrace (s : DevState) : List Ev :=
  Ev.writeUnlinked :: Ev.readCrefs ::
    (if s.crefs = 0 then [Ev.destroy] else [])

def lcTrace : LcOp → DevState → List Ev
  | LcOp.openOp, s => openTrace s
  | LcOp.closeOp, s => closeTrace s
  | LcOp.unlinkOp, s => unlinkTrace s

def isFieldEv : Ev → Bool
  | Ev.readCrefs => true
  | Ev.writeCrefs => true
  | Ev.readUnlinked => true
  | Ev.writeUnlinked => true
  | _ => false

/-- The operation acquires the exclusion lock before touching any
lifecycle field: no field event before the first semWait, and a semWait
does occur. -/
def acquiresLockBeforeFields (t : List Ev) : Bool :=
  ((t.takeWhile (fun e => !(e == Ev.semWait))).all (fun e => !isFieldEv e)) &&
    t.contains Ev.semWait

/-- The operation holds the lock for its whole duration: it starts with
semWait, performs no further semaphore operation in between, and ends
with either semPost or the destroy call (which tears the semaphore
down). -/
def lockDiscipline (t : List Ev) : Bool :=
  match t with
  | Ev.semWait :: rest =>
      ((rest.dropLast).all (fun e => !(e == Ev.semWait) && !(e == Ev.semPost))) &&
        (rest.getLast? == some Ev.semPost || rest.getLast? == some Ev.destroy)
  | _ => false

def noLockUse (t : List Ev) : Bool :=
  t.all (fun e => !(e == Ev.semWait) && !(e == Ev.semPost))

/-! ### Helper lemmas for the lifecycle runs -/

theorem step_destroyed_fields (op : LcOp) (s f : DevState)
    (h : (lcStep op s).2 = LcOutcome.destroyed f) :
    f.crefs = 0 ∧ f.unlinked = true := by
  cases op with
  | openOp =>
      unfold lcStep ft80x_open at h
      by_cases h0 : (s.crefs + 1) % 256 = 0 <;> simp [h0] at h
  | closeOp =>
      unfold lcStep ft80x_close at h
      by_cases h1 : s.crefs ≤ 1
      · by_cases h2 : s.unlinked = true
        · simp [h1, h2] at h
          subst h
          exact ⟨rfl, rfl⟩
        · simp [h1, h2] at h
      · simp [h1] at h
  | unlinkOp =>
      unfold lcStep ft80x_unlink at h
      by_cases h0 : s.crefs = 0
      · simp [h0] at h
        subst h
        exact ⟨rfl, rfl⟩
      · simp [h0] at h

theorem run_destroyed_once (ops : List LcOp) :
    ∀ s f, runOps s ops = LcOutcome.destroyed f →
      destroyCount s ops = 1 ∧ f.crefs = 0 ∧ f.unlinked = true := by
  induction ops with
  | nil =>
      intro s f h
      simp [runOps] at h
  | cons op rest ih =>
      intro s f h
      cases h2 : (lcStep op s).2 with
      | live s1 =>
          simp only [runOps, destroyCount, h2] at h ⊢
          exact ih s1 f h
      | destroyed f1 =>
          simp only [runOps, destroyCount, h2] at h ⊢
          cases h
          exact ⟨by trivial, step_destroyed_fields op s _ h2⟩

theorem trace_destroy_last (op : LcOp) (s : DevState) :
    (((lcTrace op s).dropLast).all (fun e => !(e == Ev.destroy))) = true := by
  cases op with
  | openOp =>
      show (((openTrace s).dropLast).all (fun e => !(e == Ev.destroy))) = true
      unfold openTrace
      by_cases h0 : (s.crefs + 1) % 256 = 0
      · rw [if_pos h0]; decide
      · rw [if_neg h0]; decide
  | closeOp =>
      show (((closeTrace s).dropLast).all (fun e => !(e == Ev.destroy))) = true
      unfold closeTrace
      by_cases h1 : s.crefs ≤ 1
      · by_cases h2 : s.unlinked = true
        · rw [if_pos h1, if_pos h2]; decide
        · rw [if_pos h1, if_neg h2]; decide
      · rw [if_neg h1]; decide
  | unlinkOp =>
      show (((unlinkTrace s).dropLast).all (fun e => !(e == Ev.destroy))) = true
      unfold unlinkTrace
      by_cases h0 : s.crefs = 0
      · rw [if_pos h0]; decide
      · rw [if_neg h0]; decide

/-! ### Claim theorems: lifecycle -/

/-- C1: for every finite sequence of open/close/unlink calls on one
device instance, ft80x_destroy is invoked exactly once (in a run that
reaches destruction), only at a moment when crefs == 0 and
unlinked == true hold simultaneously, and within any single call the
destroy invocation is the last access the call makes to the instance
(no field is touched after destruction). -/
theorem lifecycle_destroy_once_iff (ops : List LcOp) (f : DevState)
    (h : runOps initState ops = LcOutcome.destroyed f)
    (op : LcOp) (s : DevState) :
    destroyCount initState ops = 1 ∧ f.crefs = 0 ∧ f.unlinked = true ∧
      (((lcTrace op s).dropLast).all (fun e => !(e == Ev.destroy))) = true := by
  obtain ⟨h1, h2, h3⟩ := run_destroyed_once ops initState f h
  exact ⟨h1, h2, h3, trace_destroy_last op s⟩

theorem lifecycle_destroy_once_iff_inst :
    runOps initState [LcOp.unlinkOp] = LcOutcome.destroyed ⟨0, true⟩ ∧
      (destroyCount initState [LcOp.unlinkOp] = 1 ∧
        (⟨0, true⟩ : DevState).crefs = 0 ∧ (⟨0, true⟩ : DevState).unlinked = true ∧
        (((lcTrace LcOp.closeOp ⟨1, true⟩).dropLast).all
          (fun e => !(e == Ev.destroy))) = true) :=
  ⟨by decide,
   lifecycle_destroy_once_iff [LcOp.unlinkOp] ⟨0, true⟩ (by decide) LcOp.closeOp ⟨1, true⟩⟩

/-- C2 counterexample: ft80x_unlink writes the unlinked flag, reads
crefs, and even invokes ft80x_destroy without ever acquiring the
exclusion lock, so the claim that every lifecycle operation takes the
lock before touching referenceCount/unlinked is false (here at a device
state with crefs = 0, unlinked = false). -/
theorem unlink_lock_cex :
    acquiresLockBeforeFields (unlinkTrace ⟨0, false⟩) = false ∧
      (unlinkTrace ⟨0, false⟩).any isFieldEv = true ∧
      (unlinkTrace ⟨0, false⟩).contains Ev.destroy = true := by decide

/-- C2 amended: ft80x_open and ft80x_close acquire the exclusion lock
before touching the lifecycle fields and hold it for the operation's
whole duration (the destruction path of close ends in ft80x_destroy
instead of a post); ft80x_unlink, however, accesses the fields and may
destroy the instance without ever using the lock, so the two
destruction trigger paths are not made mutually exclusive by the lock. -/
theorem lock_discipline_amended (s : DevState) :
    lockDiscipline (openTrace s) = true ∧
      lockDiscipline (closeTrace s) = true ∧
      noLockUse (unlinkTrace s) = true ∧
      (unlinkTrace s).any isFieldEv = true := by
  refine ⟨?_, ?_, ?_, ?_⟩
  · unfold openTrace
    by_cases h0 : (s.crefs + 1) % 256 = 0
    · rw [if_pos h0]; decide
    · rw [if_neg h0]; decide
  · unfold closeTrace
    by_cases h1 : s.crefs ≤ 1
    · by_cases h2 : s.unlinked = true
      · rw [if_pos h1, if_pos h2]; decide
      · rw [if_pos h1, if_neg h2]; decide
    · rw [if_neg h1]; decide
  · unfold unlinkTrace
    by_cases h0 : s.crefs = 0
    · rw [if_pos h0]; decide
    · rw [if_neg h0]; decide
  · unfold unlinkTrace
    by_cases h0 : s.crefs = 0
    · rw [if_pos h0]; decide
    · rw [if_neg h0]; decide

/-- C5: with crefs in the uint8_t range, ft80x_open at the maximum
representable count (255) fails with -EMFILE and leaves the state
unchanged; at any other count it succeeds, increments crefs by exactly
one and changes nothing else. -/
theorem open_increment_or_emfile (s : DevState) (h : s.crefs ≤ 255) :
    ft80x_open s =
      (if s.crefs = 255 then (-EMFILE, LcOutcome.live s)
       else (OK, LcOutcome.live ⟨s.crefs + 1, s.unlinked⟩)) := by
  by_cases hc : s.crefs = 255
  · simp [ft80x_open, hc]
  · have hlt : s.crefs + 1 < 256 := by omega
    have hmod : (s.crefs + 1) % 256 = s.crefs + 1 := Nat.mod_eq_of_lt hlt
    have hne : (s.crefs + 1) % 256 ≠ 0 := by omega
    simp [ft80x_open, hc, hne, hmod]

theorem open_increment_or_emfile_inst :
    (⟨255, false⟩ : DevState).crefs ≤ 255 ∧
      ft80x_open ⟨255, false⟩ =
        (if (⟨255, false⟩ : DevState).crefs = 255
         then (-EMFILE, LcOutcome.live ⟨255, false⟩)
         else (OK, LcOutcome.live ⟨(⟨255, false⟩ : DevState).crefs + 1,
                (⟨255, false⟩ : DevState).unlinked⟩)) :=
  ⟨by decide, open_increment_or_emfile ⟨255, false⟩ (by decide)⟩

/-- C6: ft80x_close with crefs > 1 decrements the count and changes
nothing else; with crefs <= 1 it sets the count to 0 and then destroys
the instance within this same call when unlinked is set, while
otherwise the instance survives with crefs = 0 and a subsequent
ft80x_open succeeds (the device may be reopened). -/
theorem close_decrement_destroy (s : DevState) :
    (if 1 < s.crefs then
       ft80x_close s = (OK, LcOutcome.live ⟨s.crefs - 1, s.unlinked⟩)
     else if s.unlinked = true then
       ft80x_close s = (OK, LcOutcome.destroyed ⟨0, true⟩)
     else
       ft80x_close s = (OK, LcOutcome.live ⟨0, false⟩) ∧
         ft80x_open ⟨0, false⟩ = (OK, LcOutcome.live ⟨1, false⟩)) := by
  by_cases h1 : 1 < s.crefs
  · have h2 : ¬ s.crefs ≤ 1 := by omega
    simp [h1, h2, ft80x_close]
  · have h2 : s.crefs ≤ 1 := by omega
    by_cases h3 : s.unlinked = true
    · simp [h1, h2, h3, ft80x_close]
    · have h4 : s.unlinked = false := by
        cases hu : s.unlinked
        · rfl
        · exact absurd hu h3
      refine if_neg h1 ▸ ?_
      simp only [h4, if_neg (Bool.false_ne_true)]
      constructor
      · simp [ft80x_close, h2, h4]
      · decide

/-- C10: for any state with crefs > 0, ft80x_unlink returns OK, sets
unlinked to true, leaves crefs (and everything else) untouched and does
not destroy the instance; calling ft80x_unlink again in the resulting
state is harmless and also returns OK with no further change. -/
theorem unlink_deferred_frame (s : DevState) (h : 0 < s.crefs) :
    ft80x_unlink s = (OK, LcOutcome.live ⟨s.crefs, true⟩) ∧
      ft80x_unlink ⟨s.crefs, true⟩ = (OK, LcOutcome.live ⟨s.crefs, true⟩) := by
  have h0 : s.crefs ≠ 0 := by omega
  exact ⟨by simp [ft80x_unlink, h0], by simp [ft80x_unlink, h0]⟩

theorem unlink_deferred_frame_inst :
    0 < (⟨1, false⟩ : DevState).crefs ∧
      (ft80x_unlink ⟨1, false⟩ =
          (OK, LcOutcome.live ⟨(⟨1, false⟩ : DevState).crefs, true⟩) ∧
        ft80x_unlink ⟨(⟨1, false⟩ : DevState).crefs, true⟩ =
          (OK, LcOutcome.live ⟨(⟨1, false⟩ : DevState).crefs, true⟩)) :=
  ⟨by decide, unlink_deferred_frame ⟨1, false⟩ (by decide)⟩

/-! ### Bus-level model

Addresses and command constants come from the FT80x headers
(drivers/lcd/ft80x.h and nuttx/lcd/ft80x.h), which are not part of the
two source files. -/

/-- Modelled from the spec: the fixed display-list base address and the
display-list memory capacity used by PutDisplayList/GetResult32; the
header ft80x.h defining FT80X_RAM_DL and FT80X_RAM_DL_SIZE is not in
src, values per the FT800 memory map (8 KiB display-list RAM at
0x100000). -/
def FT80X_RAM_DL : Nat := 0x100000

def FT80X_RAM_DL_SIZE : Nat := 8 * 1024

/-- Modelled from the spec: register and ROM addresses of the FT800
(header ft80x.h not in src).  Only their distinctness and fixedness
matter for the claims. -/
def FT80X_REG_ID : Nat := 0x102400

def FT80X_ROM_CHIPID : Nat := 0x0C0000
def FT80X_REG_HCYCLE : Nat := 0x102428
def FT80X_REG_HOFFSET : Nat := 0x10242C
def FT80X_REG_HSIZE : Nat := 0x102430
def FT80X_REG_HSYNC0 : Nat := 0x102434
def FT80X_REG_HSYNC1 : Nat := 0x102438
def FT80X_REG_VCYCLE : Nat := 0x10243C
def FT80X_REG_VOFFSET : Nat := 0x102440
def FT80X_REG_VSIZE : Nat := 0x102444
def FT80X_REG_VSYNC0 : Nat := 0x102448
def FT80X_REG_VSYNC1 : Nat := 0x10244C
def FT80X_REG_DLSWAP : Nat := 0x102450
def FT80X_REG_SWIZZLE : Nat := 0x102460
def FT80X_REG_CSPREAD : Nat := 0x102464
def FT80X_REG_PCLK_POL : Nat := 0x102468
def FT80X_REG_PCLK : Nat := 0x10246C
def FT80X_REG_GPIO_DIR : Nat := 0x102490
def FT80X_REG_GPIO : Nat := 0x102494
def FT80X_REG_TRACKER : Nat := 0x109000

/-- Modelled from the spec: identity mask and host commands (header
ft80x.h not in src).  ID_MASK selects the low identity bits of
FT80X_REG_ID, compared against 0x7c in the source. -/
def ID_MASK : Nat := 0xff

def FT80X_CMD_CLKEXT : Nat := 0x44
def FT80X_CMD_ACTIVE : Nat := 0x00
def DLSWAP_FRAME : Nat := 2

/-- Modelled from the spec: display-list command words of the bootstrap
list (macros FT80X_CLEAR_COLOR_RGB, FT80X_CLEAR, FT80X_DISPLAY from the
missing header). -/
def FT80X_CLEAR_COLOR_RGB000 : Nat := 0x02000000

def FT80X_CLEAR111 : Nat := 0x26000007
def FT80X_DISPLAY_CMD : Nat := 0x00000000

/-- ROMID for the compiled chip variant (ft80x_base.c:79-87); the
CONFIG_LCD_FT800 build is modelled, ROMID = 0x01000800 (the FT801 value
0x01000801 behaves identically in every theorem below). -/
def ROMID : Nat := 0x01000800

/-- The two frequency regimes the orchestrator switches between
(priv->frequency = lower->init_frequency / lower->op_frequency). -/
inductive Freq where
  | init | operating
deriving DecidableEq, BEq, Repr

/-- One recorded transport/bus operation. -/
inductive Bus where
  | pwrdown (off : Bool)
  | delayMs (ms : Nat)
  | setFreq (f : Freq)
  | hostCmd (c : Nat)
  | readWord (addr : Nat)
  | readByte (addr : Nat)
  | writeByte (addr : Nat) (v : Nat)
  | writeHword (addr : Nat) (v : Nat)
  | writeWord (addr : Nat) (v : Nat)
  | writeMem (addr : Nat) (data : List Nat) (len : Nat)
deriving DecidableEq, BEq, Repr

/-- A device oracle: the 32-bit word the bus returns when the given
address is read.  ft80x_read_word truncates to uint32_t. -/
def ft80x_read_word (dev : Nat → Nat) (addr : Nat) : Nat :=
  dev addr % 4294967296

/-- ft80x_read_byte truncates the oracle value to uint8_t. -/
def ft80x_read_byte (dev : Nat → Nat) (addr : Nat) : Nat :=
  dev addr % 256

/-! ### Command dispatcher: write path and ioctl commands -/

/-- Argument of the write entry point: the user buffer address
(0 models NULL), the byte count, and the buffer contents. -/
structure WriteReq where
  buffer : Nat
  len : Nat
  data : List Nat
deriving DecidableEq, Repr

/-- ft80x_write (ft80x_base.c:308-351): rejects a null or non
word-aligned buffer and a zero, non word-multiple or oversized length
with -EINVAL before any bus access; otherwise performs one
ft80x_write_memory block write of len bytes at FT80X_RAM_DL and returns
len. -/
def ft80x_write (r : WriteReq) : Int × List Bus :=
  if r.buffer = 0 ∨ r.buffer % 4 ≠ 0 ∨ r.len = 0 ∨ r.len % 4 ≠ 0 ∨
      r.len > FT80X_RAM_DL_SIZE then
    (-EINVAL, [])
  else
    ((r.len : Int), [Bus.writeMem FT80X_RAM_DL r.data r.len])

/-- Modelled from the spec: struct ft80x_displaylist_s (header not in
src) is a uint32_t dlsize followed by the first display-list command,
so the command data lives at byte offset 4 of the structure. -/
def cmdOffset : Nat := 4

/-- A non-null FT80XIOC_PUTDISPLAYLIST argument: address of the struct,
its dlsize field, and the display-list bytes starting at the cmd
member.  `none` models a NULL dl pointer. -/
structure DisplayList where
  addr : Nat
  dlsize : Nat
  data : List Nat
deriving DecidableEq, Repr

/-- The FT80XIOC_PUTDISPLAYLIST case of ft80x_ioctl
(ft80x_base.c:393-414): rejects dl == NULL, a non word-aligned
&dl->cmd, and a zero, non word-multiple or oversized dlsize with
-EINVAL; otherwise block-writes dlsize bytes from &dl->cmd to
FT80X_RAM_DL and returns OK. -/
def putDisplayList (dl : Option DisplayList) : Int × List Bus :=
  match dl with
  | none => (-EINVAL, [])
  | some d =>
      if (d.addr + cmdOffset) % 4 ≠ 0 ∨ d.dlsize = 0 ∨ d.dlsize % 4 ≠ 0 ∨
          d.dlsize > FT80X_RAM_DL_SIZE then
        (-EINVAL, [])
      else
        (OK, [Bus.writeMem FT80X_RAM_DL d.data d.dlsize])

/-- Bridge between the two success conventions: the ioctl returns OK
while write returns the accepted byte count. -/
def toWriteResult (r : Int × List Bus) (n : Nat) : Int × List Bus :=
  if r.1 = OK then ((n : Int), r.2) else r

/-- The invalid-request condition exactly as the claim words it for a
data pointer p and length n. -/
def dlInvalid (p n : Nat) : Prop :=
  p = 0 ∨ p % 4 ≠ 0 ∨ n = 0 ∨ n % 4 ≠ 0 ∨ n > FT80X_RAM_DL_SIZE

instance (p n : Nat) : Decidable (dlInvalid p n) := by
  unfold dlInvalid; infer_instance

/-- A non-null FT80XIOC_GETRESULT32 argument: the address of the
ft80x_result32_s structure (whose offset field is its first member)
and the value of that offset field. -/
structure Result32 where
  addr : Nat
  offset : Nat
deriving DecidableEq, Repr

/-- The FT80XIOC_GETRESULT32 case of ft80x_ioctl
(ft80x_base.c:422-439): rejects result == NULL, a non word-aligned
&result->offset (the address of the field, not the field's value), and
offset >= FT80X_RAM_DL_SIZE with -EINVAL; otherwise word-reads
FT80X_RAM_DL + offset and stores the value. -/
def getResult32 (dev : Nat → Nat) (r : Option Result32) :
    Int × Option Nat × List Bus :=
  match r with
  | none => (-EINVAL, none, [])
  | some q =>
      if q.addr % 4 ≠ 0 ∨ q.offset ≥ FT80X_RAM_DL_SIZE then
        (-EINVAL, none, [])
      else
        (OK, some (ft80x_read_word dev (FT80X_RAM_DL + q.offset)),
          [Bus.readWord (FT80X_RAM_DL + q.offset)])

/-! ### Bring-up orchestrator (ft80x_initialize, ft80x_base.c:531-739)

The fatal detail of the source: both identity reads are stored into a
variable declared `uint8_t regval32` (line 533), so each 32-bit word is
truncated to its low byte before comparison.  This is kept explicitly
as `% 256` below. -/

/-- The register-programming tail of the bring-up sequence exactly as
written in the source after the two identity checks (steps 4-9 of the
boot sequence; the CONFIG_LCD_FT80X_WQVGA display profile branch is the
compiled one): pixel clock disabled first, then the timing registers,
the bootstrap display list, the swap trigger, the GPIO display enable,
the nonzero pixel-clock divisor, and finally the switch to the
operating frequency. -/
def ft80x_program (dev : Nat → Nat) : List Bus :=
  [Bus.writeByte FT80X_REG_PCLK 0,
   Bus.writeHword FT80X_REG_HCYCLE 548,
   Bus.writeHword FT80X_REG_HOFFSET 43,
   Bus.writeHword FT80X_REG_HSYNC0 0,
   Bus.writeHword FT80X_REG_HSYNC1 41,
   Bus.writeHword FT80X_REG_VCYCLE 292,
   Bus.writeHword FT80X_REG_VOFFSET 12,
   Bus.writeHword FT80X_REG_VSYNC0 0,
   Bus.writeHword FT80X_REG_VSYNC1 10,
   Bus.writeByte FT80X_REG_SWIZZLE 0,
   Bus.writeByte FT80X_REG_PCLK_POL 1,
   Bus.writeByte FT80X_REG_CSPREAD 1,
   Bus.writeHword FT80X_REG_HSIZE 480,
   Bus.writeHword FT80X_REG_VSIZE 272,
   Bus.writeWord (FT80X_RAM_DL + 0) FT80X_CLEAR_COLOR_RGB000,
   Bus.writeWord (FT80X_RAM_DL + 4) FT80X_CLEAR111,
   Bus.writeWord (FT80X_RAM_DL + 8) FT80X_DISPLAY_CMD,
   Bus.writeByte FT80X_REG_DLSWAP DLSWAP_FRAME,
   Bus.readByte FT80X_REG_GPIO_DIR,
   Bus.writeByte FT80X_REG_GPIO_DIR (ft80x_read_byte dev FT80X_REG_GPIO_DIR ||| 128),
   Bus.readByte FT80X_REG_GPIO,
   Bus.writeByte FT80X_REG_GPIO (ft80x_read_byte dev FT80X_REG_GPIO ||| 128),
   Bus.writeByte FT80X_REG_PCLK 5,
   Bus.setFreq Freq.operating]

/-- Transport operations performed before the first identity check:
power-down release, 20 ms settle delay, adoption of the init frequency,
the two host wake commands, and the chip-identity read. -/
def bringupPrefix : List Bus :=
  [Bus.pwrdown false, Bus.delayMs 20, Bus.setFreq Freq.init,
   Bus.hostCmd FT80X_CMD_CLKEXT, Bus.hostCmd FT80X_CMD_ACTIVE,
   Bus.readWord FT80X_REG_ID]

def bringupPrefix2 : List Bus :=
  bringupPrefix ++ [Bus.readWord FT80X_ROM_CHIPID]

/-- ft80x_initialize (ft80x_base.c:531-739), embedding the whole
bring-up: returns the result code together with the recorded transport
operations.  Both identity reads pass through `% 256` because the
source stores them in the uint8_t regval32. -/
def ft80x_bringup (dev : Nat → Nat) : Int × List Bus :=
  if (ft80x_read_word dev FT80X_REG_ID % 256) &&& ID_MASK ≠ 0x7c then
    (-ENODEV, bringupPrefix)
  else if ft80x_read_word dev FT80X_ROM_CHIPID % 256 ≠ ROMID then
    (-ENODEV, bringupPrefix2)
  else
    (OK, bringupPrefix2 ++ ft80x_program dev)

/-- A device that answers both identity reads with exactly the expected
constants: the masked chip identity is 0x7c and the ROM identity word
is ROMID. -/
def goodDev : Nat → Nat :=
  fun a => if a = FT80X_ROM_CHIPID then ROMID else 0x7c

/-! ### Registration entry point (ft80x_register, ft80x_base.c:764-828) -/

/-- Resource events of the registration path. -/
inductive RegEv where
  | alloc | semInit | semDestroy | free | nodeRegistered
deriving DecidableEq, BEq, Repr

/-- ft80x_register with a successful kmm_zalloc (an allocation failure
returns -ENOMEM before acquiring anything): allocate, sem_init, run
ft80x_initialize; on its failure — or on register_driver failure,
whose outcome is the parameter — goto errout_with_sem, which only
calls sem_destroy and returns.  The source has no kmm_free on this
path. -/
def ft80x_register (dev : Nat → Nat) (registerDriverRes : Int) :
    Int × List RegEv :=
  if (ft80x_bringup dev).1 < 0 then
    ((ft80x_bringup dev).1, [RegEv.alloc, RegEv.semInit, RegEv.semDestroy])
  else if registerDriverRes < 0 then
    (registerDriverRes, [RegEv.alloc, RegEv.semInit, RegEv.semDestroy])
  else
    (OK, [RegEv.alloc, RegEv.semInit, RegEv.nodeRegistered])

/-! ### Trace predicates for the bring-up ordering claim -/

def isWriteEv : Bus → Bool
  | Bus.writeByte _ _ => true
  | Bus.writeHword _ _ => true
  | Bus.writeWord _ _ => true
  | Bus.writeMem _ _ _ => true
  | _ => false

/-- A write to one of the horizontal/vertical timing registers
programmed by step 6 of the bring-up. -/
def isTimingWrite : Bus → Bool
  | Bus.writeHword a _ =>
      a == FT80X_REG_HCYCLE || a == FT80X_REG_HOFFSET || a == FT80X_REG_HSYNC0 ||
        a == FT80X_REG_HSYNC1 || a == FT80X_REG_VCYCLE || a == FT80X_REG_VOFFSET ||
        a == FT80X_REG_VSYNC0 || a == FT80X_REG_VSYNC1 || a == FT80X_REG_HSIZE ||
        a == FT80X_REG_VSIZE
  | Bus.writeByte a _ =>
      a == FT80X_REG_SWIZZLE || a == FT80X_REG_PCLK_POL || a == FT80X_REG_CSPREAD
  | _ => false

def isPclkZero : Bus → Bool
  | Bus.writeByte a v => a == FT80X_REG_PCLK && v == 0
  | _ => false

def isPclkEnable : Bus → Bool
  | Bus.writeByte a v => a == FT80X_REG_PCLK && !(v == 0)
  | _ => false

/-- A word write into the display-list memory region. -/
def isDlWrite : Bus → Bool
  | Bus.writeWord a _ =>
      Nat.ble FT80X_RAM_DL a && Nat.blt a (FT80X_RAM_DL + FT80X_RAM_DL_SIZE)
  | _ => false

def isSwapWrite : Bus → Bool
  | Bus.writeByte a _ => a == FT80X_REG_DLSWAP
  | _ => false

/-- The ordering the claim describes, as a check on a recorded
operation list: a pixel-clock-disable write precedes the first timing
write; timing writes, display-list writes and the swap-trigger write
all occur (and only occur) before the nonzero pixel-clock enable write;
a pixel-clock enable write exists; and the very last operation is the
switch to the operating frequency. -/
def orderingBool (t : List Bus) : Bool :=
  ((t.takeWhile (fun e => !isTimingWrite e)).any isPclkZero) &&
    ((t.takeWhile (fun e => !isPclkEnable e)).any isTimingWrite) &&
    ((t.takeWhile (fun e => !isPclkEnable e)).any isDlWrite) &&
    ((t.takeWhile (fun e => !isPclkEnable e)).any isSwapWrite) &&
    ((t.dropWhile (fun e => !isPclkEnable e)).all
      (fun e => !isTimingWrite e && !isDlWrite e && !isSwapWrite e)) &&
    (t.any isPclkEnable) &&
    (t.getLast? == some (Bus.setFreq Freq.operating))

/-! ### Helper lemmas for the bring-up -/

/-- The ROM-identity comparison of the source can never succeed: the
word read back is truncated to a uint8_t (so it is below 256) while
ROMID is 0x01000800. -/
theorem romid_check_ne (dev : Nat → Nat) :
    ft80x_read_word dev FT80X_ROM_CHIPID % 256 ≠ ROMID := by
  have h : ft80x_read_word dev FT80X_ROM_CHIPID % 256 < 256 :=
    Nat.mod_lt _ (by decide)
  unfold ROMID
  omega

theorem bringup_fst (dev : Nat → Nat) : (ft80x_bringup dev).1 = -ENODEV := by
  unfold ft80x_bringup
  by_cases h1 : (ft80x_read_word dev FT80X_REG_ID % 256) &&& ID_MASK ≠ 0x7c
  · rw [if_pos h1]
  · rw [if_neg h1, if_pos (romid_check_ne dev)]

theorem bringup_trace (dev : Nat → Nat) :
    (ft80x_bringup dev).2 = bringupPrefix ∨
      (ft80x_bringup dev).2 = bringupPrefix2 := by
  unfold ft80x_bringup
  by_cases h1 : (ft80x_read_word dev FT80X_REG_ID % 256) &&& ID_MASK ≠ 0x7c
  · rw [if_pos h1]; exact Or.inl rfl
  · rw [if_neg h1, if_pos (romid_check_ne dev)]; exact Or.inr rfl

/-! ### Claim theorems: bring-up, registration, dispatcher -/

/-- C3 (code bug): for every device — in particular for goodDev, which
answers the chip-identity read with the expected masked identity 0x7c
and the ROM-identity read with the expected constant ROMID — the
bring-up returns -ENODEV.  The uint8_t truncation of the ROM identity
word makes the second identity comparison fail unconditionally, so the
claimed success case (neither identity step aborts) is unreachable. -/
theorem bringup_always_device_absent (dev : Nat → Nat) :
    (ft80x_bringup dev).1 = -ENODEV ∧
      ((ft80x_read_word goodDev FT80X_REG_ID % 256) &&& ID_MASK = 0x7c) ∧
      ft80x_read_word goodDev FT80X_ROM_CHIPID = ROMID ∧
      (ft80x_bringup goodDev).1 = -ENODEV :=
  ⟨bringup_fst dev, by decide, by decide, bringup_fst goodDev⟩

/-- C4 (code bug): whenever registration fails after the instance has
been allocated (which is always, since bring-up always fails; the
register_driver outcome r covers the other error arm), ft80x_register
destroys the semaphore but never frees the allocated instance: no free
event appears in the resource trace. -/
theorem register_error_leaks_alloc (dev : Nat → Nat) (r : Int) :
    (ft80x_register dev r).1 = -ENODEV ∧
      (ft80x_register dev r).2 = [RegEv.alloc, RegEv.semInit, RegEv.semDestroy] ∧
      (((ft80x_register dev r).2).all (fun e => !(e == RegEv.free))) = true := by
  have hb := bringup_fst dev
  have hlt : (ft80x_bringup dev).1 < 0 := by rw [hb]; decide
  unfold ft80x_register
  rw [if_pos hlt, hb]
  exact ⟨rfl, rfl, by decide⟩

/-- C9 (code bug): on one hand, the recorded transport operations of
every actual bring-up run contain no register write at all (the run
always aborts at the identity checks, so neither the pixel-clock writes
nor the timing, display-list or swap writes are ever recorded); on the
other hand, the register-programming sequence as written after the
checks does satisfy the claimed ordering: pixel clock disabled before
the first timing write, all timing/display-list/swap writes strictly
before the nonzero pixel-clock enable, and the operating-frequency
switch last. -/
theorem bringup_ordering_bug (dev : Nat → Nat) :
    (((ft80x_bringup dev).2).all (fun e => !isWriteEv e)) = true ∧
      orderingBool (ft80x_program dev) = true := by
  constructor
  · rcases bringup_trace dev with h | h <;> rw [h] <;> decide
  · rfl

/-- C7: the write entry point is equivalent to issuing the
FT80XIOC_PUTDISPLAYLIST command on the same data pointer (the cmd
member at offset cmdOffset of the request structure) and length, up to
the success return value (write returns the accepted byte count, the
ioctl returns OK): both fail with -EINVAL and perform no bus write
exactly when the pointer is null or not word-aligned or the length is
zero, not a multiple of 4, or exceeds the display-list capacity, and on
valid input both perform the single block write of the bytes to
FT80X_RAM_DL. -/
theorem write_equiv_putdisplaylist (a n : Nat) (bytes : List Nat) :
    ft80x_write ⟨a + cmdOffset, n, bytes⟩ =
        toWriteResult (putDisplayList (some ⟨a, n, bytes⟩)) n ∧
      ((ft80x_write ⟨a + cmdOffset, n, bytes⟩).1 = -EINVAL ↔
        dlInvalid (a + cmdOffset) n) ∧
      (ft80x_write ⟨a + cmdOffset, n, bytes⟩).2 =
        (if dlInvalid (a + cmdOffset) n then []
         else [Bus.writeMem FT80X_RAM_DL bytes n]) ∧
      ft80x_write ⟨0, n, bytes⟩ = (-EINVAL, []) ∧
      putDisplayList none = (-EINVAL, []) := by
  have hne : a + cmdOffset ≠ 0 := by unfold cmdOffset; omega
  by_cases hC : (a + cmdOffset) % 4 ≠ 0 ∨ n = 0 ∨ n % 4 ≠ 0 ∨
      n > FT80X_RAM_DL_SIZE
  · have hInv : dlInvalid (a + cmdOffset) n := Or.inr hC
    refine ⟨?_, ?_, ?_, rfl, rfl⟩
    · simp only [ft80x_write, putDisplayList, toWriteResult]
      rw [if_pos (Or.inr hC), if_pos hC]
      rw [if_neg (by unfold OK EINVAL; decide)]
    · simp only [ft80x_write]
      rw [if_pos (Or.inr hC)]
      simp [hInv]
    · simp only [ft80x_write]
      rw [if_pos (Or.inr hC), if_pos hInv]
  · have hInv : ¬ dlInvalid (a + cmdOffset) n := by
      unfold dlInvalid
      push_neg
      push_neg at hC
      exact ⟨hne, hC.1, hC.2.1, hC.2.2.1, hC.2.2.2⟩
    have hW : ¬ ((⟨a + cmdOffset, n, bytes⟩ : WriteReq).buffer = 0 ∨
        (⟨a + cmdOffset, n, bytes⟩ : WriteReq).buffer % 4 ≠ 0 ∨
        (⟨a + cmdOffset, n, bytes⟩ : WriteReq).len = 0 ∨
        (⟨a + cmdOffset, n, bytes⟩ : WriteReq).len % 4 ≠ 0 ∨
        (⟨a + cmdOffset, n, bytes⟩ : WriteReq).len > FT80X_RAM_DL_SIZE) := by
      intro hcon
      rcases hcon with h0 | hrest
      · exact hne h0
      · exact hC hrest
    refine ⟨?_, ?_, ?_, rfl, rfl⟩
    · simp only [ft80x_write, putDisplayList, toWriteResult]
      rw [if_neg hW, if_neg hC]
      rw [if_pos rfl]
    · simp only [ft80x_write]
      rw [if_neg hW]
      have hn : (n : Int) ≠ -EINVAL := by unfold EINVAL; omega
      simp [hn, hInv]
    · simp only [ft80x_write]
      rw [if_neg hW, if_neg hInv]

/-- Concrete oracle for the dispatcher counterexample: every read
returns zero. -/
def cdev : Nat → Nat := fun _ => 0

/-- C8 counterexample: with a properly aligned result structure at
address 4 and the misaligned offset value 2 (2 % 4 is not 0, and 2 is
below the capacity), the GETRESULT32 code succeeds and performs a bus
read at FT80X_RAM_DL + 2 — the claim says it must fail with
InvalidArgument and perform no bus read whenever the offset value is
not word-aligned. -/
theorem getresult32_offset_align_cex :
    (getResult32 cdev (some ⟨4, 2⟩)).1 = OK ∧
      (getResult32 cdev (some ⟨4, 2⟩)).2.2 = [Bus.readWord (FT80X_RAM_DL + 2)] ∧
      (2 : Nat) % 4 ≠ 0 ∧ (2 : Nat) < FT80X_RAM_DL_SIZE := by decide

/-- C8 amended: GETRESULT32 fails with -EINVAL and performs no bus read
exactly when the result pointer is null, the address of the offset
field is not word-aligned, or the offset is not strictly below the
display-list capacity; the offset value's own alignment is not checked.
For an aligned structure, every offset < capacity (aligned or not)
succeeds and returns the word read at FT80X_RAM_DL + offset; in
particular offset = capacity - 4 succeeds while offset = capacity
fails. -/
theorem getresult32_amended (dev : Nat → Nat) (a off b : Nat)
    (ha : a % 4 = 0) (hb : b % 4 ≠ 0) :
    getResult32 dev (some ⟨a, off⟩) =
        (if off < FT80X_RAM_DL_SIZE then
           (OK, some (dev (FT80X_RAM_DL + off) % 4294967296),
             [Bus.readWord (FT80X_RAM_DL + off)])
         else (-EINVAL, none, [])) ∧
      getResult32 dev (some ⟨b, off⟩) = (-EINVAL, none, []) ∧
      getResult32 dev none = (-EINVAL, none, []) ∧
      (getResult32 dev (some ⟨a, FT80X_RAM_DL_SIZE - 4⟩)).1 = OK ∧
      (getResult32 dev (some ⟨a, FT80X_RAM_DL_SIZE⟩)).1 = -EINVAL := by
  have key : ∀ o : Nat, getResult32 dev (some ⟨a, o⟩) =
      (if o < FT80X_RAM_DL_SIZE then
         (OK, some (dev (FT80X_RAM_DL + o) % 4294967296),
           [Bus.readWord (FT80X_RAM_DL + o)])
       else (-EINVAL, none, [])) := by
    intro o
    by_cases ho : o < FT80X_RAM_DL_SIZE
    · have hg : ¬ (a % 4 ≠ 0 ∨ o ≥ FT80X_RAM_DL_SIZE) := by omega
      simp only [getResult32]
      rw [if_neg hg, if_pos ho]
      rfl
    · have hg : a % 4 ≠ 0 ∨ o ≥ FT80X_RAM_DL_SIZE := by omega
      simp only [getResult32]
      rw [if_pos hg, if_neg ho]
  refine ⟨key off, ?_, rfl, ?_, ?_⟩
  · have hg : b % 4 ≠ 0 ∨ off ≥ FT80X_RAM_DL_SIZE := Or.inl hb
    simp only [getResult32]
    rw [if_pos hg]
  · rw [key (FT80X_RAM_DL_SIZE - 4)]
    rw [if_pos (by unfold FT80X_RAM_DL_SIZE; omega)]
  · rw [key FT80X_RAM_DL_SIZE]
    rw [if_neg (by omega)]

theorem getresult32_amended_inst :
    ((4 : Nat) % 4 = 0 ∧ (5 : Nat) % 4 ≠ 0) ∧
      (getResult32 cdev (some ⟨4, 0⟩) =
          (if (0 : Nat) < FT80X_RAM_DL_SIZE then
             (OK, some (cdev (FT80X_RAM_DL + 0) % 4294967296),
               [Bus.readWord (FT80X_RAM_DL + 0)])
           else (-EINVAL, none, [])) ∧
        getResult32 cdev (some ⟨5, 0⟩) = (-EINVAL, none, []) ∧
        getResult32 cdev none = (-EINVAL, none, []) ∧
        (getResult32 cdev (some ⟨4, FT80X_RAM_DL_SIZE - 4⟩)).1 = OK ∧
        (getResult32 cdev (some ⟨4, FT80X_RAM_DL_SIZE⟩)).1 = -EINVAL) :=
  ⟨⟨by decide, by decide⟩, getresult32_amended cdev 4 0 5 (by decide) (by decide)⟩

end Ft80x
